import Mathlib

/-!
Verification of the secure listener handshake coordinator
(src/core/ext/transport/chttp2/server/secure/server_secure_chttp2.c).

The C file is embedded shallowly: `server_secure_state` becomes a Lean
structure, mutex-guarded mutations become pure state transformers, and
calls to external collaborators (endpoint destruction, handshake-manager
creation, reference counting, transport construction, logging) are
recorded as explicit events in an effect trace so that "is called exactly
once" style properties can be stated about them.
-/

set_option autoImplicit false

namespace ServerSecureChttp2

/-- Opaque handle to a `grpc_handshake_manager` (identity only matters). -/
abbrev HandshakeMgr := Nat

/-- Opaque handle to a `grpc_endpoint`. -/
abbrev Endpoint := Nat

/-- Outcome delivered to `on_handshake_done` via its `grpc_error *error`
argument: `none` models `GRPC_ERROR_NONE`, `some e` a failure. -/
inductive HsError where
  | timeout
  | other (code : Nat)

/-- The completion callback registered with
`grpc_handshake_manager_do_handshake`.  The C file registers exactly one
callback, `on_handshake_done`, so the type has a single constructor. -/
inductive DoneCb where
  | on_handshake_done

/-- Events emitted towards external collaborators, in program order. -/
inductive Effect where
  | endpoint_destroy (ep : Endpoint)
  | handshake_mgr_create (mgr : HandshakeMgr)
  | tcp_server_ref
  | tcp_server_unref
  | create_handshakers (sc : Nat) (mgr : HandshakeMgr)
  | do_handshake (mgr : HandshakeMgr) (ep : Endpoint) (deadline : Nat) (cb : DoneCb)
  | handshake_shutdown (mgr : HandshakeMgr)
  | exec_ctx_flush
  | sc_unref
  | creds_unref
  | destroy_done_invoke (closure : Nat)
  | log_handshake_failed
  | transport_setup (ep : Endpoint)
  | transport_start_reading
  | mgr_destroy (mgr : HandshakeMgr)
  | connection_state_free
  | read_buffer_free
  | channel_args_destroy
  | tcp_server_start
  | tcp_server_shutdown_listeners
  | state_free

/-- `server_secure_state` (lines 62-72 of the C file).  The mutex itself
is not modelled; every transformer below corresponds to a critical
section executed while holding it.  `shutdown` is the spec's
`shutdown_flag`; `pending_handshake_mgrs` is the linked list of
`pending_handshake_manager_node`s, head first. -/
structure ServerSecureState where
  server : Nat
  tcp_server : Nat
  sc : Nat
  creds : Nat
  shutdown : Bool
  server_destroy_listener_done : Option Nat
  pending_handshake_mgrs : List HandshakeMgr

/-- `pending_handshake_manager_add_locked` (lines 81-87): pushes a fresh
node at the head of the list. -/
def pending_handshake_manager_add_locked (state : ServerSecureState)
    (handshake_mgr : HandshakeMgr) : ServerSecureState :=
  { state with pending_handshake_mgrs := handshake_mgr :: state.pending_handshake_mgrs }

/-- The list traversal inside `pending_handshake_manager_remove_locked`
(lines 91-100): unlink the first node whose `handshake_mgr` matches and
`break`; leave the list untouched when no node matches. -/
def remove_first (handshake_mgr : HandshakeMgr) : List HandshakeMgr → List HandshakeMgr
  | [] => []
  | node :: rest =>
    if node = handshake_mgr then rest
    else node :: remove_first handshake_mgr rest

/-- `pending_handshake_manager_remove_locked` (lines 89-101). -/
def pending_handshake_manager_remove_locked (state : ServerSecureState)
    (handshake_mgr : HandshakeMgr) : ServerSecureState :=
  { state with
      pending_handshake_mgrs := remove_first handshake_mgr state.pending_handshake_mgrs }

/-- `pending_handshake_manager_shutdown_locked` (lines 103-114): walk the
list, call `grpc_handshake_manager_shutdown` on every node (recorded as a
`handshake_shutdown` event per node, in list order), free the nodes, and
null out the list. -/
def pending_handshake_manager_shutdown_locked (state : ServerSecureState) :
    ServerSecureState × List Effect :=
  ({ state with pending_handshake_mgrs := [] },
   state.pending_handshake_mgrs.map Effect.handshake_shutdown)

/-- `gpr_time_from_seconds(s, GPR_TIMESPAN)`, with time in whole seconds. -/
def gpr_time_from_seconds (s : Nat) : Nat := s

/-- `gpr_time_add` on the seconds model. -/
def gpr_time_add (a b : Nat) : Nat := a + b

/-- `on_accept` (lines 157-187).  `fresh_mgr` is the handle returned by
`grpc_handshake_manager_create()`, `now` the value of
`gpr_now(GPR_CLOCK_MONOTONIC)` in seconds.  Returns the listener state
after the call together with the trace of collaborator calls. -/
def on_accept (state : ServerSecureState) (tcp : Endpoint)
    (fresh_mgr : HandshakeMgr) (now : Nat) : ServerSecureState × List Effect :=
  if state.shutdown then
    (state, [Effect.endpoint_destroy tcp])
  else
    let handshake_mgr := fresh_mgr
    let state1 := pending_handshake_manager_add_locked state handshake_mgr
    let deadline := gpr_time_add now (gpr_time_from_seconds 120)
    (state1,
     [Effect.handshake_mgr_create handshake_mgr,
      Effect.tcp_server_ref,
      Effect.create_handshakers state.sc handshake_mgr,
      Effect.do_handshake handshake_mgr tcp deadline DoneCb.on_handshake_done])

/-- `on_handshake_done` (lines 116-155).  `mgr` is
`connection_state->handshake_mgr`, `ep` is `args->endpoint`, `error` the
callback's error argument.  The three branches (failure /
success-while-shutdown / success) differ only in their leading effects;
every branch then removes the entry from the registry, destroys the
handshake manager, unrefs the tcp server, frees the connection state and
destroys the channel args. -/
def on_handshake_done (state : ServerSecureState) (mgr : HandshakeMgr)
    (ep : Endpoint) (error : Option HsError) : ServerSecureState × List Effect :=
  let branch :=
    match error with
    | some _ =>
      [Effect.log_handshake_failed, Effect.endpoint_destroy ep, Effect.read_buffer_free]
    | none =>
      if state.shutdown then [Effect.endpoint_destroy ep]
      else [Effect.transport_setup ep, Effect.transport_start_reading]
  (pending_handshake_manager_remove_locked state mgr,
   branch ++
     [Effect.mgr_destroy mgr, Effect.tcp_server_unref,
      Effect.connection_state_free, Effect.channel_args_destroy])

/-- `server_start_listener` (lines 190-199): clear the shutdown flag
under the mutex, then start the tcp server with `on_accept`. -/
def server_start_listener (state : ServerSecureState) : ServerSecureState × List Effect :=
  ({ state with shutdown := false }, [Effect.tcp_server_start])

/-- `server_destroy_listener` (lines 222-233): set the shutdown flag,
store the destroy-done closure, then stop the listeners and drop the
bind-time tcp-server reference. -/
def server_destroy_listener (state : ServerSecureState) (destroy_done : Option Nat) :
    ServerSecureState × List Effect :=
  ({ state with shutdown := true, server_destroy_listener_done := destroy_done },
   [Effect.tcp_server_shutdown_listeners, Effect.tcp_server_unref])

/-- `tcp_server_shutdown_complete` (lines 201-220).  `GPR_ASSERT(state->shutdown)`
is modelled by returning `none` when the flag is false.  On the normal
path the result is the listener state right after the registry drain
(the state is freed at the end, recorded as `state_free`) together with
the full effect trace. -/
def tcp_server_shutdown_complete (state : ServerSecureState) :
    Option (ServerSecureState × List Effect) :=
  if state.shutdown then
    let destroy_done := state.server_destroy_listener_done
    let drained := pending_handshake_manager_shutdown_locked state
    some (drained.1,
      drained.2 ++
        [Effect.exec_ctx_flush, Effect.sc_unref, Effect.creds_unref] ++
        (match destroy_done with
         | some closure => [Effect.destroy_done_invoke closure, Effect.exec_ctx_flush]
         | none => []) ++
      [Effect.state_free])
  else
    none

/-- Result of one `grpc_tcp_server_add_port` call: `Except.error e` a
failing bind with error `e`, `Except.ok p` a successful bind on port `p`. -/
abbrev AddPortResult := Except Nat Nat

/-- The `errors[i]` slot written by the loop: `none` models
`GRPC_ERROR_NONE` (a success marker), `some e` a per-address failure. -/
def result_error : AddPortResult → Option Nat
  | .error e => some e
  | .ok _ => none

/-- The add-port loop of `grpc_server_add_secure_http2_port`
(lines 297-309): iterate over the resolved addresses, counting successes,
latching the first successful port into `port_num` and asserting
`GPR_ASSERT(port_num == port_temp)` on every later success.  Returns
`none` when that assertion fails, otherwise the final `port_num`
(`none` models the initial `-1`), the success count, and the `errors`
array. -/
def add_ports_loop : List AddPortResult → Option Nat → Nat →
    Option (Option Nat × Nat × List (Option Nat))
  | [], port_num, count => some (port_num, count, [])
  | r :: rest, port_num, count =>
    match r with
    | .error e =>
      (add_ports_loop rest port_num count).map
        fun out => (out.1, out.2.1, some e :: out.2.2)
    | .ok port_temp =>
      match port_num with
      | none =>
        (add_ports_loop rest (some port_temp) (count + 1)).map
          fun out => (out.1, out.2.1, none :: out.2.2)
      | some pn =>
        if pn = port_temp then
          (add_ports_loop rest (some pn) (count + 1)).map
            fun out => (out.1, out.2.1, none :: out.2.2)
        else
          none

/-- Observable outcome of one `grpc_server_add_secure_http2_port` call:
the returned value, which error/warning messages were emitted, which
resources were allocated along the way, and the listener state registered
with the server on success. -/
structure BindOutcome where
  ret : Nat
  config_error : Bool
  connector_created : Bool
  resolution_performed : Bool
  state_allocated : Bool
  tcp_server_created : Bool
  listener_registered : Bool
  warning_logged : Bool
  error_logged : Bool
  error_refs : List (Option Nat)
  listener_state : Option ServerSecureState

/-- `grpc_server_add_secure_http2_port` (lines 235-374).  External
collaborator results are passed as parameters: `creds` is the credentials
argument (`none` models `creds == NULL`), `connector_ok` whether
`grpc_server_credentials_create_security_connector` returns
`GRPC_SECURITY_OK` with connector handle `sc`, `resolution` the result of
`grpc_blocking_resolve_address` (a list of per-address
`grpc_tcp_server_add_port` results), `tcp_create` the result of
`grpc_tcp_server_create`.  Returns `none` when `GPR_ASSERT` in the bind
loop fails, otherwise the observable outcome. -/
def grpc_server_add_secure_http2_port (server : Nat) (creds : Option Nat)
    (connector_ok : Bool) (sc : Nat)
    (resolution : Except Nat (List AddPortResult))
    (tcp_create : Except Nat Nat) : Option BindOutcome :=
  match creds with
  | none =>
    some { ret := 0, config_error := true, connector_created := false,
           resolution_performed := false, state_allocated := false,
           tcp_server_created := false, listener_registered := false,
           warning_logged := false, error_logged := true,
           error_refs := [], listener_state := none }
  | some c =>
    if ¬ connector_ok then
      some { ret := 0, config_error := false, connector_created := false,
             resolution_performed := false, state_allocated := false,
             tcp_server_created := false, listener_registered := false,
             warning_logged := false, error_logged := true,
             error_refs := [], listener_state := none }
    else
      match resolution with
      | .error _ =>
        some { ret := 0, config_error := false, connector_created := true,
               resolution_performed := true, state_allocated := false,
               tcp_server_created := false, listener_registered := false,
               warning_logged := false, error_logged := true,
               error_refs := [], listener_state := none }
      | .ok binds =>
        match tcp_create with
        | .error _ =>
          some { ret := 0, config_error := false, connector_created := true,
                 resolution_performed := true, state_allocated := true,
                 tcp_server_created := false, listener_registered := false,
                 warning_logged := false, error_logged := true,
                 error_refs := [], listener_state := none }
        | .ok tcp =>
          match add_ports_loop binds none 0 with
          | none => none
          | some (port_num, count, errs) =>
            if count = 0 then
              some { ret := 0, config_error := false, connector_created := true,
                     resolution_performed := true, state_allocated := true,
                     tcp_server_created := true, listener_registered := false,
                     warning_logged := false, error_logged := true,
                     error_refs := errs, listener_state := none }
            else if count ≠ binds.length then
              some { ret := port_num.getD 0, config_error := false,
                     connector_created := true, resolution_performed := true,
                     state_allocated := true, tcp_server_created := true,
                     listener_registered := true, warning_logged := true,
                     error_logged := false, error_refs := errs,
                     listener_state := some
                       { server := server, tcp_server := tcp, sc := sc,
                         creds := c, shutdown := true,
                         server_destroy_listener_done := none,
                         pending_handshake_mgrs := [] } }
            else
              some { ret := port_num.getD 0, config_error := false,
                     connector_created := true, resolution_performed := true,
                     state_allocated := true, tcp_server_created := true,
                     listener_registered := true, warning_logged := false,
                     error_logged := false, error_refs := [],
                     listener_state := some
                       { server := server, tcp_server := tcp, sc := sc,
                         creds := c, shutdown := true,
                         server_destroy_listener_done := none,
                         pending_handshake_mgrs := [] } }

theorem grpc_add_port_ok_shape (server c sc tcp : Nat)
    (binds : List AddPortResult) :
    grpc_server_add_secure_http2_port server (some c) true sc
        (Except.ok binds) (Except.ok tcp) =
      match add_ports_loop binds none 0 with
      | none => none
      | some (port_num, count, errs) =>
        if count = 0 then
          some { ret := 0, config_error := false, connector_created := true,
                 resolution_performed := true, state_allocated := true,
                 tcp_server_created := true, listener_registered := false,
                 warning_logged := false, error_logged := true,
                 error_refs := errs, listener_state := none }
        else if count ≠ binds.length then
          some { ret := port_num.getD 0, config_error := false,
                 connector_created := true, resolution_performed := true,
                 state_allocated := true, tcp_server_created := true,
                 listener_registered := true, warning_logged := true,
                 error_logged := false, error_refs := errs,
                 listener_state := some
                   { server := server, tcp_server := tcp, sc := sc,
                     creds := c, shutdown := true,
                     server_destroy_listener_done := none,
                     pending_handshake_mgrs := [] } }
        else
          some { ret := port_num.getD 0, config_error := false,
                 connector_created := true, resolution_performed := true,
                 state_allocated := true, tcp_server_created := true,
                 listener_registered := true, warning_logged := false,
                 error_logged := false, error_refs := [],
                 listener_state := some
                   { server := server, tcp_server := tcp, sc := sc,
                     creds := c, shutdown := true,
                     server_destroy_listener_done := none,
                     pending_handshake_mgrs := [] } } := rfl

/-- Modelled from the spec: the handshake-manager implementation
(`grpc_handshake_manager_do_handshake`, src/core/lib/channel/handshaker.c,
part of this repository but not under src/) "must guarantee the handshake
it populates eventually completes (success, failure, or external abort)
exactly once" and "exceeding the deadline must be surfaced as a timeout
failure through the same completion path as any other handshake error":
given the registered callback, the deadline, the completion time and the
underlying outcome, it invokes that one callback with a timeout error
exactly when the deadline was exceeded. -/
def handshake_manager_complete (cb : DoneCb) (deadline finish_time : Nat)
    (outcome : Option HsError) : DoneCb × Option HsError :=
  (cb, if deadline < finish_time then some HsError.timeout else outcome)

/-- Modelled from the spec: the network-listener collaborator
(`grpc_tcp_server`, src/core/lib/iomgr/tcp_server.h, part of this
repository but not under src/) "must guarantee `on_shutdown_complete`
fires exactly once, after all accept callbacks for that listener have
returned"; the closure installed at bind time is
`tcp_server_shutdown_complete`, so that completion step runs exactly once
per listener. -/
def shutdown_complete_invocations_per_listener : Nat := 1

/-! ### Operation sequences on a listener state -/

/-- One mutating entry point into the listener state, as invocable by the
server and the event loop after binding. -/
inductive Op where
  | accept (tcp : Endpoint) (fresh_mgr : HandshakeMgr) (now : Nat)
  | handshake_done (mgr : HandshakeMgr) (ep : Endpoint) (error : Option HsError)
  | start
  | destroy (destroy_done : Option Nat)

/-- Whether an operation is the `server_start_listener` callback. -/
def Op.isStart : Op → Bool
  | .start => true
  | _ => false

/-- State reached after one operation (effects dropped). -/
def apply_op (state : ServerSecureState) : Op → ServerSecureState
  | .accept tcp fresh now => (on_accept state tcp fresh now).1
  | .handshake_done mgr ep err => (on_handshake_done state mgr ep err).1
  | .start => (server_start_listener state).1
  | .destroy d => (server_destroy_listener state d).1

/-- State reached after a sequence of operations. -/
def run_ops (state : ServerSecureState) : List Op → ServerSecureState
  | [] => state
  | op :: ops => run_ops (apply_op state op) ops

/-! ### Helper lemmas -/

theorem shutdown_preserved (state : ServerSecureState) (op : Op)
    (hs : state.shutdown = true) (hop : op.isStart = false) :
    (apply_op state op).shutdown = true := by
  cases op with
  | accept tcp fresh now => simp [apply_op, on_accept, hs]
  | handshake_done mgr ep err =>
    simp [apply_op, on_handshake_done, pending_handshake_manager_remove_locked, hs]
  | start => simp [Op.isStart] at hop
  | destroy d => simp [apply_op, server_destroy_listener]

theorem run_shutdown_preserved (ops : List Op) (state : ServerSecureState)
    (hs : state.shutdown = true) (h : ∀ op ∈ ops, op.isStart = false) :
    (run_ops state ops).shutdown = true := by
  induction ops generalizing state with
  | nil => simpa [run_ops] using hs
  | cons op ops ih =>
    exact ih (apply_op state op)
      (shutdown_preserved state op hs (h op (by simp)))
      (fun o ho => h o (by simp [ho]))

theorem remove_first_not_mem (h : HandshakeMgr) (l : List HandshakeMgr)
    (hn : h ∉ l) : remove_first h l = l := by
  induction l with
  | nil => rfl
  | cons a as ih =>
    have ha : a ≠ h := fun e => hn (by simp [e])
    simp only [remove_first, if_neg ha]
    rw [ih (fun m => hn (List.mem_cons_of_mem _ m))]

theorem remove_first_first_match (h : HandshakeMgr) (l1 l2 : List HandshakeMgr)
    (hn : h ∉ l1) : remove_first h (l1 ++ h :: l2) = l1 ++ l2 := by
  induction l1 with
  | nil => simp [remove_first]
  | cons a as ih =>
    have ha : a ≠ h := fun e => hn (by simp [e])
    simp only [List.cons_append, remove_first, if_neg ha]
    exact congrArg (List.cons a) (ih (fun m => hn (List.mem_cons_of_mem _ m)))

theorem remove_first_idem_of_count (h : HandshakeMgr) (l : List HandshakeMgr)
    (hc : l.count h ≤ 1) : remove_first h (remove_first h l) = remove_first h l := by
  induction l with
  | nil => rfl
  | cons a as ih =>
    by_cases ha : a = h
    · subst ha
      have hz : as.count a = 0 := by
        rw [List.count_cons_self] at hc
        exact Nat.le_zero.mp (Nat.succ_le_succ_iff.mp hc)
      have hstep : remove_first a (a :: as) = as := if_pos rfl
      rw [hstep]
      exact remove_first_not_mem a as (List.count_eq_zero.mp hz)
    · have hc' : as.count h ≤ 1 := by
        rw [List.count_cons_of_ne (Ne.symm ha)] at hc
        exact hc
      have hstep : ∀ x : List HandshakeMgr,
          remove_first h (a :: x) = a :: remove_first h x :=
        fun x => if_neg ha
      rw [hstep, hstep, ih hc']

/-- Extracts the manager from a `handshake_shutdown` event. -/
def shutdown_signal_mgr : Effect → Option HandshakeMgr
  | Effect.handshake_shutdown m => some m
  | _ => none

theorem filterMap_shutdown_signals (l : List HandshakeMgr) :
    (l.map Effect.handshake_shutdown).filterMap shutdown_signal_mgr = l := by
  induction l with
  | nil => rfl
  | cons a as ih =>
    rw [List.map_cons, List.filterMap_cons, ih]
    rfl

/-- Whether an event is the security-connector release. -/
def sc_unref_ev : Effect → Bool
  | Effect.sc_unref => true
  | _ => false

/-- Whether an event is the credentials release. -/
def creds_unref_ev : Effect → Bool
  | Effect.creds_unref => true
  | _ => false

/-- The handshake manager destroyed by an event, when any. -/
def destroyed_mgr : Effect → Option HandshakeMgr
  | Effect.mgr_destroy m => some m
  | _ => none

/-- Whether an event drops the tcp-server reference. -/
def tcp_server_unref_ev : Effect → Bool
  | Effect.tcp_server_unref => true
  | _ => false

/-- Whether an event frees the per-connection state. -/
def connection_state_free_ev : Effect → Bool
  | Effect.connection_state_free => true
  | _ => false

theorem countP_signals_sc_unref (l : List HandshakeMgr) :
    (l.map Effect.handshake_shutdown).countP sc_unref_ev = 0 := by
  induction l with
  | nil => rfl
  | cons a as ih =>
    rw [List.map_cons, List.countP_cons, ih,
      show sc_unref_ev (Effect.handshake_shutdown a) = false from rfl]
    rfl

theorem countP_signals_creds_unref (l : List HandshakeMgr) :
    (l.map Effect.handshake_shutdown).countP creds_unref_ev = 0 := by
  induction l with
  | nil => rfl
  | cons a as ih =>
    rw [List.map_cons, List.countP_cons, ih,
      show creds_unref_ev (Effect.handshake_shutdown a) = false from rfl]
    rfl

/-! ### Concrete states used by witnesses and counterexamples -/

/-- A listener state mid-shutdown with two handshakes still pending. -/
def shutdown_state_ex : ServerSecureState :=
  { server := 1, tcp_server := 2, sc := 3, creds := 4, shutdown := true,
    server_destroy_listener_done := some 9, pending_handshake_mgrs := [5, 7] }

/-- An active listener state with two distinct pending handshakes. -/
def small_registry_state : ServerSecureState :=
  { server := 1, tcp_server := 2, sc := 3, creds := 4, shutdown := false,
    server_destroy_listener_done := none, pending_handshake_mgrs := [3, 5] }

/-- A registry state holding the same handle twice. -/
def dup_registry_state : ServerSecureState :=
  { server := 1, tcp_server := 2, sc := 3, creds := 4, shutdown := false,
    server_destroy_listener_done := none, pending_handshake_mgrs := [0, 0] }

/-! ### Claims -/

/-- C1: when `on_accept` observes `shutdown_flag` true under the listener
mutex, it destroys the raw endpoint, starts no handshake, and returns
with the pending-handshake registry and every other `ListenerState`
field unchanged. -/
theorem on_accept_shutdown_no_side_effects (state : ServerSecureState)
    (tcp : Endpoint) (fresh_mgr : HandshakeMgr) (now : Nat)
    (h : state.shutdown = true) :
    on_accept state tcp fresh_mgr now = (state, [Effect.endpoint_destroy tcp]) ∧
    ∀ mgr ep dl cb,
      Effect.do_handshake mgr ep dl cb ∉ (on_accept state tcp fresh_mgr now).2 := by
  constructor
  · simp [on_accept, h]
  · intro mgr ep dl cb
    simp [on_accept, h]

/-- Witness for C1 at a concrete mid-shutdown state. -/
theorem on_accept_shutdown_no_side_effects_witness :
    on_accept shutdown_state_ex 11 12 13 =
      (shutdown_state_ex, [Effect.endpoint_destroy 11]) ∧
    Effect.do_handshake 12 11 133 DoneCb.on_handshake_done ∉
      (on_accept shutdown_state_ex 11 12 13).2 :=
  ⟨(on_accept_shutdown_no_side_effects shutdown_state_ex 11 12 13 rfl).1,
   (on_accept_shutdown_no_side_effects shutdown_state_ex 11 12 13 rfl).2
     12 11 133 DoneCb.on_handshake_done⟩

/-- C2: after `tcp_server_shutdown_complete` runs, the pending-handshake
registry is empty and each formerly pending entry received exactly one
shutdown signal (the signal trace equals the registry content), the
security connector and the credentials were each released exactly once,
and the completion step runs exactly once per listener — for every
number of pending handshakes. -/
theorem shutdown_complete_drains_and_releases (state : ServerSecureState)
    (h : state.shutdown = true) :
    ∃ s effs, tcp_server_shutdown_complete state = some (s, effs) ∧
      s.pending_handshake_mgrs = [] ∧
      effs.filterMap shutdown_signal_mgr = state.pending_handshake_mgrs ∧
      effs.countP sc_unref_ev = 1 ∧
      effs.countP creds_unref_ev = 1 ∧
      shutdown_complete_invocations_per_listener = 1 := by
  refine ⟨{ state with pending_handshake_mgrs := [] },
    state.pending_handshake_mgrs.map Effect.handshake_shutdown ++
      [Effect.exec_ctx_flush, Effect.sc_unref, Effect.creds_unref] ++
      (match state.server_destroy_listener_done with
       | some closure =>
         [Effect.destroy_done_invoke closure, Effect.exec_ctx_flush]
       | none => []) ++
      [Effect.state_free], ?_, rfl, ?_, ?_, ?_, rfl⟩
  · unfold tcp_server_shutdown_complete
    rw [if_pos h]
    rfl
  · rw [List.filterMap_append, List.filterMap_append, List.filterMap_append,
      filterMap_shutdown_signals,
      show List.filterMap shutdown_signal_mgr
          [Effect.exec_ctx_flush, Effect.sc_unref, Effect.creds_unref] = []
        from rfl,
      show List.filterMap shutdown_signal_mgr
          (match state.server_destroy_listener_done with
           | some closure =>
             [Effect.destroy_done_invoke closure, Effect.exec_ctx_flush]
           | none => []) = []
        from by cases state.server_destroy_listener_done <;> rfl,
      show List.filterMap shutdown_signal_mgr [Effect.state_free] = []
        from rfl,
      List.append_nil, List.append_nil, List.append_nil]
  · rw [List.countP_append, List.countP_append, List.countP_append,
      countP_signals_sc_unref,
      show List.countP sc_unref_ev
          (match state.server_destroy_listener_done with
           | some closure =>
             [Effect.destroy_done_invoke closure, Effect.exec_ctx_flush]
           | none => []) = 0
        from by cases state.server_destroy_listener_done <;> rfl]
    rfl
  · rw [List.countP_append, List.countP_append, List.countP_append,
      countP_signals_creds_unref,
      show List.countP creds_unref_ev
          (match state.server_destroy_listener_done with
           | some closure =>
             [Effect.destroy_done_invoke closure, Effect.exec_ctx_flush]
           | none => []) = 0
        from by cases state.server_destroy_listener_done <;> rfl]
    rfl

/-- Witness for C2 at a concrete state with two pending handshakes. -/
theorem shutdown_complete_drains_and_releases_witness :
    ∃ s effs, tcp_server_shutdown_complete shutdown_state_ex = some (s, effs) ∧
      s.pending_handshake_mgrs = [] ∧
      effs.filterMap shutdown_signal_mgr = shutdown_state_ex.pending_handshake_mgrs ∧
      effs.countP sc_unref_ev = 1 ∧
      effs.countP creds_unref_ev = 1 ∧
      shutdown_complete_invocations_per_listener = 1 :=
  shutdown_complete_drains_and_releases shutdown_state_ex rfl

/-- C4: whatever the handshake outcome (failure, success during
shutdown, or success), `on_handshake_done` removes the handshake's entry
from the registry, destroys the handshake manager exactly once, releases
the listener (tcp-server) reference exactly once, and frees the
per-connection context exactly once. -/
theorem on_handshake_done_always_cleans_up (state : ServerSecureState)
    (mgr : HandshakeMgr) (ep : Endpoint) (error : Option HsError) :
    (on_handshake_done state mgr ep error).1 =
      pending_handshake_manager_remove_locked state mgr ∧
    (on_handshake_done state mgr ep error).2.filterMap destroyed_mgr = [mgr] ∧
    (on_handshake_done state mgr ep error).2.countP tcp_server_unref_ev = 1 ∧
    (on_handshake_done state mgr ep error).2.countP connection_state_free_ev = 1 := by
  refine ⟨rfl, ?_, ?_, ?_⟩ <;>
    (cases error with
     | some e => rfl
     | none =>
       cases hs : state.shutdown <;>
         · simp only [on_handshake_done, hs]
           rfl)

/-- C6: calling `grpc_server_add_secure_http2_port` with NULL
credentials fails immediately: it returns 0, reports a configuration
error, and allocates nothing — no connector, no resolution, no listener
state, no tcp server, no listener registration. -/
theorem add_port_null_creds_fails_early (server sc : Nat)
    (connector_ok : Bool) (resolution : Except Nat (List AddPortResult))
    (tcp_create : Except Nat Nat) :
    grpc_server_add_secure_http2_port server none connector_ok sc resolution
        tcp_create =
      some { ret := 0, config_error := true, connector_created := false,
             resolution_performed := false, state_allocated := false,
             tcp_server_created := false, listener_registered := false,
             warning_logged := false, error_logged := true,
             error_refs := [], listener_state := none } := rfl

/-- C8 counterexample: on a registry holding the handle twice, a second
remove after a successful one is not a no-op — it deletes the second
occurrence, so the claim's universally quantified double-remove clause
fails at registry `[0, 0]`, handle `0`. -/
theorem remove_double_remove_counterexample :
    (pending_handshake_manager_remove_locked
        (pending_handshake_manager_remove_locked dup_registry_state 0)
        0).pending_handshake_mgrs ≠
      (pending_handshake_manager_remove_locked dup_registry_state
        0).pending_handshake_mgrs := by
  decide

/-- C8 (amended): `pending_handshake_manager_remove_locked` deletes
exactly the first matching entry, is a no-op when no entry matches, and
a second remove of the same handle after a successful one changes
nothing provided the handle occurred at most once in the registry (as
reachable registries guarantee, entries never being duplicated). -/
theorem remove_locked_first_match_semantics (state : ServerSecureState)
    (handshake_mgr : HandshakeMgr) :
    (∀ l1 l2, state.pending_handshake_mgrs = l1 ++ handshake_mgr :: l2 →
        handshake_mgr ∉ l1 →
        (pending_handshake_manager_remove_locked state
            handshake_mgr).pending_handshake_mgrs = l1 ++ l2) ∧
    (handshake_mgr ∉ state.pending_handshake_mgrs →
        pending_handshake_manager_remove_locked state handshake_mgr = state) ∧
    (state.pending_handshake_mgrs.count handshake_mgr ≤ 1 →
        pending_handshake_manager_remove_locked
            (pending_handshake_manager_remove_locked state handshake_mgr)
            handshake_mgr =
          pending_handshake_manager_remove_locked state handshake_mgr) := by
  refine ⟨?_, ?_, ?_⟩
  · intro l1 l2 hsplit hnm
    simp [pending_handshake_manager_remove_locked, hsplit,
      remove_first_first_match _ _ _ hnm]
  · intro hnm
    simp [pending_handshake_manager_remove_locked,
      remove_first_not_mem _ _ hnm]
  · intro hc
    simp [pending_handshake_manager_remove_locked,
      remove_first_idem_of_count _ _ hc]

/-- Witness for C8's amended theorem at a concrete registry. -/
theorem remove_locked_first_match_semantics_witness :
    (pending_handshake_manager_remove_locked
        small_registry_state 5).pending_handshake_mgrs = [3] ∧
    pending_handshake_manager_remove_locked small_registry_state 9 =
      small_registry_state ∧
    pending_handshake_manager_remove_locked
        (pending_handshake_manager_remove_locked small_registry_state 5) 5 =
      pending_handshake_manager_remove_locked small_registry_state 5 :=
  ⟨(remove_locked_first_match_semantics small_registry_state 5).1 [3] []
      rfl (by decide),
   (remove_locked_first_match_semantics small_registry_state 9).2.1 (by decide),
   (remove_locked_first_match_semantics small_registry_state 5).2.2 (by decide)⟩

/-- The listener state as initialized by a successful bind
(lines 278-295): note `state->shutdown = true` before any start. -/
def fresh_bound_state : ServerSecureState :=
  { server := 1, tcp_server := 2, sc := 3, creds := 4, shutdown := true,
    server_destroy_listener_done := none, pending_handshake_mgrs := [] }

/-- The outcome of the fully successful concrete bind used in witnesses. -/
def sample_bind_outcome : BindOutcome :=
  { ret := 80, config_error := false, connector_created := true,
    resolution_performed := true, state_allocated := true,
    tcp_server_created := true, listener_registered := true,
    warning_logged := false, error_logged := false,
    error_refs := [], listener_state := some fresh_bound_state }

/-- C3 counterexample: the claim fails on the code.  A successful bind
registers a listener state whose `shutdown_flag` is already true
(line 294), and the very next reachable operation —
`server_start_listener` — resets it to false (line 195): a
true-to-false transition performed by a later operation. -/
theorem shutdown_flag_reset_by_start_counterexample :
    Option.bind (grpc_server_add_secure_http2_port 1 (some 4) true 3
        (Except.ok [Except.ok 80]) (Except.ok 2)) BindOutcome.listener_state =
      some fresh_bound_state ∧
    fresh_bound_state.shutdown = true ∧
    (apply_op fresh_bound_state Op.start).shutdown = false :=
  ⟨rfl, rfl, rfl⟩

/-- C3 (amended): once `shutdown_flag` has been set true by the shutdown
sequencer (`server_destroy_listener`), no later operation in a reachable
sequence resets it to false — `server_start_listener` is the only
operation that clears the flag and it runs only before the destroy call.
(The unamended claim fails only because a freshly bound listener starts
with the flag true and `server_start_listener` then clears it once.) -/
theorem shutdown_flag_monotone_after_destroy (state : ServerSecureState)
    (destroy_done : Option Nat) (ops : List Op)
    (h : ∀ op ∈ ops, op.isStart = false) :
    ((server_destroy_listener state destroy_done).1).shutdown = true ∧
    (run_ops (server_destroy_listener state destroy_done).1 ops).shutdown = true := by
  exact ⟨rfl, run_shutdown_preserved ops _ rfl h⟩

/-- Witness for C3's amended theorem: a destroy followed by an accept, a
handshake completion and a second destroy keeps the flag true. -/
theorem shutdown_flag_monotone_after_destroy_witness :
    ((server_destroy_listener small_registry_state (some 9)).1).shutdown = true ∧
    (run_ops (server_destroy_listener small_registry_state (some 9)).1
        [Op.accept 11 12 13, Op.handshake_done 3 11 none,
         Op.destroy none]).shutdown = true :=
  shutdown_flag_monotone_after_destroy small_registry_state (some 9)
    [Op.accept 11 12 13, Op.handshake_done 3 11 none, Op.destroy none]
    (by decide)

/-- C9: a handshake started by `on_accept` is executed with a deadline of
exactly 120 seconds from the moment handshaking starts, with
`on_handshake_done` as its completion callback; the (spec-modelled)
handshake manager surfaces an exceeded deadline as a timeout failure
through that same single callback, and delivers any other outcome
through it unchanged. -/
theorem handshake_deadline_120s (state : ServerSecureState) (tcp : Endpoint)
    (fresh_mgr : HandshakeMgr) (now : Nat) (h : state.shutdown = false) :
    (on_accept state tcp fresh_mgr now).2 =
      [Effect.handshake_mgr_create fresh_mgr, Effect.tcp_server_ref,
       Effect.create_handshakers state.sc fresh_mgr,
       Effect.do_handshake fresh_mgr tcp (now + 120) DoneCb.on_handshake_done] ∧
    (∀ finish outcome, now + 120 < finish →
        handshake_manager_complete DoneCb.on_handshake_done (now + 120) finish
            outcome =
          (DoneCb.on_handshake_done, some HsError.timeout)) ∧
    (∀ finish outcome, finish ≤ now + 120 →
        handshake_manager_complete DoneCb.on_handshake_done (now + 120) finish
            outcome =
          (DoneCb.on_handshake_done, outcome)) := by
  refine ⟨?_, ?_, ?_⟩
  · simp [on_accept, h, gpr_time_add, gpr_time_from_seconds]
  · intro finish outcome hf
    simp [handshake_manager_complete, hf]
  · intro finish outcome hf
    simp [handshake_manager_complete, Nat.not_lt.mpr hf]

/-- Witness for C9 at a concrete active state, start time 13. -/
theorem handshake_deadline_120s_witness :
    (on_accept small_registry_state 11 12 13).2 =
      [Effect.handshake_mgr_create 12, Effect.tcp_server_ref,
       Effect.create_handshakers 3 12,
       Effect.do_handshake 12 11 133 DoneCb.on_handshake_done] ∧
    handshake_manager_complete DoneCb.on_handshake_done 133 200 none =
      (DoneCb.on_handshake_done, some HsError.timeout) ∧
    handshake_manager_complete DoneCb.on_handshake_done 133 100
        (some (HsError.other 5)) =
      (DoneCb.on_handshake_done, some (HsError.other 5)) :=
  ⟨(handshake_deadline_120s small_registry_state 11 12 13 rfl).1,
   (handshake_deadline_120s small_registry_state 11 12 13 rfl).2.1 200 none
     (by decide),
   (handshake_deadline_120s small_registry_state 11 12 13 rfl).2.2 100
     (some (HsError.other 5)) (by decide)⟩

theorem bind_listener_state_shutdown (server : Nat) (creds : Option Nat)
    (connector_ok : Bool) (sc : Nat)
    (resolution : Except Nat (List AddPortResult))
    (tcp_create : Except Nat Nat) (out : BindOutcome) (st : ServerSecureState)
    (hout : grpc_server_add_secure_http2_port server creds connector_ok sc
        resolution tcp_create = some out)
    (hst : out.listener_state = some st) : st.shutdown = true := by
  cases creds with
  | none =>
    injection hout with hout
    subst hout
    exact Option.noConfusion hst
  | some c =>
    cases connector_ok with
    | false =>
      injection hout with hout
      subst hout
      exact Option.noConfusion hst
    | true =>
      cases resolution with
      | error e =>
        injection hout with hout
        subst hout
        exact Option.noConfusion hst
      | ok binds =>
        cases tcp_create with
        | error e2 =>
          injection hout with hout
          subst hout
          exact Option.noConfusion hst
        | ok tcp =>
          rw [grpc_add_port_ok_shape] at hout
          cases hl : add_ports_loop binds none 0 with
          | none =>
            rw [hl] at hout
            exact Option.noConfusion hout
          | some triple =>
            obtain ⟨port_num, count, errs⟩ := triple
            rw [hl] at hout
            simp only [] at hout
            by_cases hc0 : count = 0
            · rw [if_pos hc0] at hout
              injection hout with hout
              subst hout
              exact Option.noConfusion hst
            · rw [if_neg hc0] at hout
              by_cases hcl : count ≠ binds.length
              · rw [if_pos hcl] at hout
                injection hout with hout
                subst hout
                injection hst with hst
                subst hst
                rfl
              · rw [if_neg hcl] at hout
                injection hout with hout
                subst hout
                injection hst with hst
                subst hst
                rfl

/-- C10: a freshly bound listener is created with `shutdown_flag` true;
only `server_start_listener` clears the flag (every other operation
preserves a true flag); and a connection delivered to `on_accept` while
the flag is still true is rejected exactly as during shutdown — endpoint
destroyed, no handshake started, registry untouched. -/
theorem fresh_listener_starts_shut_down :
    (∀ server creds connector_ok sc resolution tcp_create out st,
        grpc_server_add_secure_http2_port server creds connector_ok sc
            resolution tcp_create = some out →
        out.listener_state = some st → st.shutdown = true) ∧
    (∀ s : ServerSecureState, ((server_start_listener s).1).shutdown = false) ∧
    (∀ (s : ServerSecureState) (op : Op), s.shutdown = true →
        op.isStart = false → (apply_op s op).shutdown = true) ∧
    (∀ (s : ServerSecureState) (tcp : Endpoint) (fresh_mgr : HandshakeMgr)
        (now : Nat), s.shutdown = true →
        on_accept s tcp fresh_mgr now = (s, [Effect.endpoint_destroy tcp])) := by
  refine ⟨bind_listener_state_shutdown, fun s => rfl, shutdown_preserved, ?_⟩
  intro s tcp fresh_mgr now hs
  simp [on_accept, hs]

/-- Witness for C10: the concrete successful bind yields a listener
state with the flag true; starting clears it; destroy preserves it; an
accept before start only destroys the endpoint. -/
theorem fresh_listener_starts_shut_down_witness :
    fresh_bound_state.shutdown = true ∧
    ((server_start_listener fresh_bound_state).1).shutdown = false ∧
    (apply_op shutdown_state_ex (Op.destroy none)).shutdown = true ∧
    on_accept fresh_bound_state 21 22 23 =
      (fresh_bound_state, [Effect.endpoint_destroy 21]) :=
  ⟨fresh_listener_starts_shut_down.1 1 (some 4) true 3
      (Except.ok [Except.ok 80]) (Except.ok 2) sample_bind_outcome
      fresh_bound_state rfl rfl,
   fresh_listener_starts_shut_down.2.1 fresh_bound_state,
   fresh_listener_starts_shut_down.2.2.1 shutdown_state_ex (Op.destroy none)
     rfl rfl,
   fresh_listener_starts_shut_down.2.2.2 fresh_bound_state 21 22 23 rfl⟩

/-- Whether a per-address bind succeeded. -/
def is_ok : AddPortResult → Bool
  | .ok _ => true
  | .error _ => false

theorem is_ok_ok_if (t : Nat) :
    (if is_ok (Except.ok t) = true then (1 : Nat) else 0) = 1 := rfl

theorem is_ok_error_if (e : Nat) :
    (if is_ok (Except.error e) = true then (1 : Nat) else 0) = 0 := rfl

theorem result_error_ok (t : Nat) : result_error (Except.ok t) = none := rfl

theorem result_error_err (e : Nat) : result_error (Except.error e) = some e := rfl

theorem add_ports_loop_agree (p : Nat) (binds : List AddPortResult) :
    ∀ (port_num : Option Nat) (count : Nat),
    (∀ q ∈ binds, ∀ t, q = Except.ok t → t = p) →
    (port_num = none ∨ port_num = some p) →
    add_ports_loop binds port_num count =
      some (if binds.countP is_ok = 0 then port_num else some p,
            count + binds.countP is_ok,
            binds.map result_error) := by
  induction binds with
  | nil =>
    intro pn c _ _
    rfl
  | cons r rest ih =>
    intro pn c hagree hpn
    cases r with
    | error e =>
      have hrest := ih pn c
        (fun q hq t ht => hagree q (List.mem_cons_of_mem _ hq) t ht) hpn
      rw [show add_ports_loop (Except.error e :: rest) pn c =
            (add_ports_loop rest pn c).map
              (fun out => (out.1, out.2.1, some e :: out.2.2)) from rfl,
          hrest]
      rfl
    | ok t =>
      have ht : t = p := hagree (Except.ok t) (List.mem_cons_self _ _) t rfl
      subst ht
      have hrest := ih (some t) (c + 1)
        (fun q hq u hu => hagree q (List.mem_cons_of_mem _ hq) u hu)
        (Or.inr rfl)
      have hne : ¬(rest.countP is_ok + 1 = 0) := Nat.succ_ne_zero _
      rcases hpn with rfl | rfl
      · rw [show add_ports_loop (Except.ok t :: rest) none c =
              (add_ports_loop rest (some t) (c + 1)).map
                (fun out => (out.1, out.2.1, none :: out.2.2)) from rfl,
            hrest]
        simp only [List.countP_cons, List.map_cons, is_ok_ok_if,
          result_error_ok, ite_self]
        rw [if_neg hne, Nat.add_assoc, Nat.add_comm 1]
        rfl
      · rw [show add_ports_loop (Except.ok t :: rest) (some t) c =
              (if t = t then
                (add_ports_loop rest (some t) (c + 1)).map
                  (fun out => (out.1, out.2.1, none :: out.2.2))
              else none) from rfl,
            if_pos rfl, hrest]
        simp only [List.countP_cons, List.map_cons, is_ok_ok_if,
          result_error_ok, ite_self]
        rw [Nat.add_assoc, Nat.add_comm 1]
        rfl

theorem add_ports_loop_mismatch (binds : List AddPortResult) :
    ∀ (pn : Nat) (count : Nat),
    (∃ q ∈ binds, ∃ t, q = Except.ok t ∧ t ≠ pn) →
    add_ports_loop binds (some pn) count = none := by
  induction binds with
  | nil =>
    intro pn c h
    simp at h
  | cons r rest ih =>
    intro pn c h
    obtain ⟨q, hq, t, hqt, hne⟩ := h
    cases r with
    | error e =>
      have hq' : q ∈ rest := by
        rcases List.mem_cons.mp hq with he | h2
        · rw [he] at hqt
          exact absurd hqt (by simp)
        · exact h2
      simp [add_ports_loop, ih pn c ⟨q, hq', t, hqt, hne⟩]
    | ok u =>
      by_cases hu : pn = u
      · subst hu
        have hq' : q ∈ rest := by
          rcases List.mem_cons.mp hq with he | h2
          · rw [he] at hqt
            injection hqt with h3
            exact absurd h3.symm hne
          · exact h2
        simp [add_ports_loop, ih pn (c + 1) ⟨q, hq', t, hqt, hne⟩]
      · simp [add_ports_loop, hu]

theorem add_ports_loop_two_distinct (binds : List AddPortResult) :
    ∀ count : Nat,
    (∃ px, Except.ok px ∈ binds ∧ ∃ qx, Except.ok qx ∈ binds ∧ px ≠ qx) →
    add_ports_loop binds none count = none := by
  induction binds with
  | nil =>
    intro c h
    simp at h
  | cons r rest ih =>
    intro c h
    obtain ⟨px, hp, qx, hq, hne⟩ := h
    cases r with
    | error e =>
      have hp' : Except.ok px ∈ rest := by
        rcases List.mem_cons.mp hp with he | h2
        · exact absurd he (by simp)
        · exact h2
      have hq' : Except.ok qx ∈ rest := by
        rcases List.mem_cons.mp hq with he | h2
        · exact absurd he (by simp)
        · exact h2
      simp [add_ports_loop, ih c ⟨px, hp', qx, hq', hne⟩]
    | ok u =>
      by_cases hpu : px = u
      · have hqu : qx ≠ u := fun e => hne (by rw [hpu, e])
        have hq' : Except.ok qx ∈ rest := by
          rcases List.mem_cons.mp hq with he | h2
          · injection he with h3
            exact absurd h3 hqu
          · exact h2
        simp [add_ports_loop,
          add_ports_loop_mismatch rest u (c + 1) ⟨Except.ok qx, hq', qx, rfl, hqu⟩]
      · have hp' : Except.ok px ∈ rest := by
          rcases List.mem_cons.mp hp with he | h2
          · injection he with h3
            exact absurd h3 hpu
          · exact h2
        simp [add_ports_loop,
          add_ports_loop_mismatch rest u (c + 1) ⟨Except.ok px, hp', px, rfl, hpu⟩]

/-- C5: for a bind whose address resolves to N concrete addresses of
which k bind successfully (all successes reporting the shared port p):
k = 0 fails with the aggregate error referencing every per-address
failure and returns 0; 0 < k < N succeeds with the shared port and logs
a warning referencing the failures; k = N succeeds with no warning and
discards the per-address success markers. -/

theorem add_port_bind_outcome_policy (server c sc tcp : Nat)
    (binds : List AddPortResult) (p : Nat)
    (hagree : ∀ q ∈ binds, ∀ t, q = Except.ok t → t = p) :
    ∃ out, grpc_server_add_secure_http2_port server (some c) true sc
        (Except.ok binds) (Except.ok tcp) = some out ∧
      (binds.countP is_ok = 0 →
        out.ret = 0 ∧ out.error_logged = true ∧
        out.listener_registered = false ∧
        ∀ e, Except.error e ∈ binds → some e ∈ out.error_refs) ∧
      (0 < binds.countP is_ok →
          binds.countP is_ok < binds.length →
        out.ret = p ∧ out.listener_registered = true ∧
        out.warning_logged = true ∧
        ∀ e, Except.error e ∈ binds → some e ∈ out.error_refs) ∧
      (binds.countP is_ok = binds.length → 0 < binds.length →
        out.ret = p ∧ out.listener_registered = true ∧
        out.warning_logged = false ∧ out.error_refs = []) := by
  have hloop := add_ports_loop_agree p binds none 0 hagree (Or.inl rfl)
  rw [Nat.zero_add] at hloop
  by_cases hk0 : binds.countP is_ok = 0
  · rw [if_pos hk0] at hloop
    refine ⟨{ ret := 0, config_error := false, connector_created := true,
              resolution_performed := true, state_allocated := true,
              tcp_server_created := true, listener_registered := false,
              warning_logged := false, error_logged := true,
              error_refs := binds.map result_error, listener_state := none },
      ?_, ?_, ?_, ?_⟩
    · rw [grpc_add_port_ok_shape, hloop]
      simp only []
      rw [if_pos hk0]
    · intro _
      refine ⟨rfl, rfl, rfl, ?_⟩
      intro e he
      exact List.mem_map.mpr ⟨Except.error e, he, rfl⟩
    · intro h1 _
      exact absurd (hk0 ▸ h1) (Nat.lt_irrefl 0)
    · intro heq hlen
      refine absurd hlen ?_
      rw [← heq, hk0]
      exact Nat.lt_irrefl 0
  · rw [if_neg hk0] at hloop
    by_cases hkN : binds.countP is_ok = binds.length
    · refine ⟨{ ret := p, config_error := false, connector_created := true,
                resolution_performed := true, state_allocated := true,
                tcp_server_created := true, listener_registered := true,
                warning_logged := false, error_logged := false,
                error_refs := [], listener_state := some
                  { server := server, tcp_server := tcp, sc := sc,
                    creds := c, shutdown := true,
                    server_destroy_listener_done := none,
                    pending_handshake_mgrs := [] } },
        ?_, ?_, ?_, ?_⟩
      · rw [grpc_add_port_ok_shape, hloop]
        simp only []
        rw [if_neg hk0, if_neg (not_not_intro hkN), Option.getD_some]
      · intro h1
        exact absurd h1 hk0
      · intro _ h2
        refine absurd h2 ?_
        rw [hkN]
        exact Nat.lt_irrefl _
      · intro _ _
        exact ⟨rfl, rfl, rfl, rfl⟩
    · refine ⟨{ ret := p, config_error := false, connector_created := true,
                resolution_performed := true, state_allocated := true,
                tcp_server_created := true, listener_registered := true,
                warning_logged := true, error_logged := false,
                error_refs := binds.map result_error, listener_state := some
                  { server := server, tcp_server := tcp, sc := sc,
                    creds := c, shutdown := true,
                    server_destroy_listener_done := none,
                    pending_handshake_mgrs := [] } },
        ?_, ?_, ?_, ?_⟩
      · rw [grpc_add_port_ok_shape, hloop]
        simp only []
        rw [if_neg hk0, if_pos hkN, Option.getD_some]
      · intro h1
        exact absurd h1 hk0
      · intro _ _
        refine ⟨rfl, rfl, rfl, ?_⟩
        intro e he
        exact List.mem_map.mpr ⟨Except.error e, he, rfl⟩
      · intro heq _
        exact absurd heq hkN

/-- Witness for C5: two resolved addresses, one binds on port 80 and one
fails with error 7 — partial success returns 80, logs the warning and
references the failure. -/
theorem add_port_bind_outcome_policy_witness :
    ∃ out, grpc_server_add_secure_http2_port 1 (some 4) true 3
        (Except.ok [Except.ok 80, Except.error 7]) (Except.ok 2) = some out ∧
      out.ret = 80 ∧ out.listener_registered = true ∧
      out.warning_logged = true ∧ some 7 ∈ out.error_refs := by
  obtain ⟨out, heq, h0, hpart, hall⟩ :=
    add_port_bind_outcome_policy 1 4 3 2 [Except.ok 80, Except.error 7] 80
      (by
        intro q hq t ht
        subst ht
        simp at hq
        exact hq)
  obtain ⟨hr, hreg, hw, hrefs⟩ := hpart (by decide) (by decide)
  exact ⟨out, heq, hr, hreg, hw, hrefs 7 (by simp)⟩

/-- C7: two successful per-address bindings reporting different port
numbers make `GPR_ASSERT(port_num == port_temp)` fire (the call aborts
rather than returning either port); conversely, when every successful
binding reports the same port the assertion never fires. -/
theorem add_port_port_disagreement_asserts (server c sc tcp : Nat)
    (binds : List AddPortResult) :
    ((∃ px, Except.ok px ∈ binds ∧ ∃ qx, Except.ok qx ∈ binds ∧ px ≠ qx) →
        grpc_server_add_secure_http2_port server (some c) true sc
            (Except.ok binds) (Except.ok tcp) = none) ∧
    (∀ p, (∀ q ∈ binds, ∀ t, q = Except.ok t → t = p) →
        (grpc_server_add_secure_http2_port server (some c) true sc
            (Except.ok binds) (Except.ok tcp)).isSome = true) := by
  constructor
  · intro h
    rw [grpc_add_port_ok_shape, add_ports_loop_two_distinct binds 0 h]
  · intro p hagree
    have hloop := add_ports_loop_agree p binds none 0 hagree (Or.inl rfl)
    rw [grpc_add_port_ok_shape, hloop]
    simp only []
    repeat' split
    all_goals rfl

/-- Witness for C7: ports 5 and 6 disagree and the call aborts; two
successes on port 80 agree and the call completes. -/
theorem add_port_port_disagreement_asserts_witness :
    grpc_server_add_secure_http2_port 1 (some 4) true 3
        (Except.ok [Except.ok 5, Except.ok 6]) (Except.ok 2) = none ∧
    (grpc_server_add_secure_http2_port 1 (some 4) true 3
        (Except.ok [Except.ok 80, Except.ok 80]) (Except.ok 2)).isSome = true := by
  constructor
  · exact (add_port_port_disagreement_asserts 1 4 3 2
      [Except.ok 5, Except.ok 6]).1 ⟨5, by simp, 6, by simp, by decide⟩
  · exact (add_port_port_disagreement_asserts 1 4 3 2
      [Except.ok 80, Except.ok 80]).2 80
      (by
        intro q hq t ht
        subst ht
        simp at hq
        exact hq)

end ServerSecureChttp2
